import Mathlib

set_option autoImplicit false

/- =====================================================================
Shallow embedding of the session/proposal/agent-loop core of the
Personal-Assistant repository.

Sources embedded:
  src/session.py    - SessionState, freshness TTL, proposal validation
  src/schemas.py    - pydantic argument schemas of the propose tools
  src/tools.py      - propose tool bodies, execute_confirmed_proposal
  src/bot.py        - process_llm_response, add_message, handle_cancel,
                      handle_change, pending_proposals dict updates
  src/google_api.py - shape of read results and mutation results
                      (the Google backend itself is an opaque collaborator)

Modelling conventions:
  - Python datetimes become integer timestamps in seconds, so
    FRESHNESS_TTL = timedelta(minutes=2) becomes 120.  Every function that
    calls datetime.now() in Python takes the current time as an explicit
    argument named now.
  - Python sets of strings become lists used only through membership.
  - The dict produced by a propose_* tool becomes the closed inductive
    type Proposal, with one constructor per proposal_type value, plus
    one constructor (unknownType) standing for any dict whose
    proposal_type is none of the seven known values; the dispatcher in
    src/tools.py has an explicit branch for that case.
  - The (bool, message) pairs returned by validate_event_proposal and
    validate_task_proposal become Option ValidationError: none stands
    for (True, "") and some stands for (False, message), where the two
    distinct message families of session.py are the constructors stale
    and unknownId.
  - The external Google mutation API is an opaque collaborator: a
    function from a call descriptor (ApiCall) to Except String ExecResult,
    where Except.error models an exception reaching
    execute_confirmed_proposal and Except.ok models a returned dict.
  - A raised Python exception that is not caught anywhere in the modelled
    code is an Except.error threaded through the turn.
===================================================================== -/

/-- One formatted calendar event as returned by google_api.get_events:
keys id, summary, start, description, location.  The id key can be missing
(event.get can yield None), hence Option. -/
structure Event where
  id : Option String
  summary : String
  start : String
  description : String
  location : String
deriving DecidableEq, Repr

/-- One formatted task as returned by google_api.get_tasks. -/
structure TaskItem where
  id : Option String
  tasklist_id : String
  title : String
  notes : String
  due : String
  listName : String
deriving DecidableEq, Repr

/-- Per-user session state, from src/session.py (dataclass SessionState). -/
structure SessionState where
  allowed_event_ids : List String
  allowed_task_ids : List String
  calendar_fetched_at : Option Int
  tasks_fetched_at : Option Int
deriving DecidableEq, Repr

/-- FRESHNESS_TTL = timedelta(minutes=2), in seconds. -/
def FRESHNESS_TTL : Int := 120

/-- SessionState.is_calendar_fresh: false when no fetch has happened,
otherwise the strict comparison now - fetched_at < FRESHNESS_TTL. -/
def SessionState.is_calendar_fresh (s : SessionState) (now : Int) : Bool :=
  match s.calendar_fetched_at with
  | none => false
  | some t => decide (now - t < FRESHNESS_TTL)

/-- SessionState.is_tasks_fresh, same shape for the tasks timestamp. -/
def SessionState.is_tasks_fresh (s : SessionState) (now : Int) : Bool :=
  match s.tasks_fetched_at with
  | none => false
  | some t => decide (now - t < FRESHNESS_TTL)

/-- The id-set comprehension used by both update functions in session.py:
collect the id of each element when present and truthy (a missing key or an
empty string is falsy in Python and is skipped). -/
def pyIdSet (ids : List (Option String)) : List String :=
  (ids.filterMap (fun x => x)).filter (fun s => s != "")

/-- SessionState.update_from_calendar_read: replaces the allowed event ids
wholesale with the ids of the read result and stamps the calendar fetch
time to now. -/
def update_from_calendar_read (s : SessionState) (now : Int) (events : List Event) :
    SessionState :=
  { s with
    allowed_event_ids := pyIdSet (events.map (fun e => e.id)),
    calendar_fetched_at := some now }

/-- SessionState.update_from_tasks_read: same for tasks. -/
def update_from_tasks_read (s : SessionState) (now : Int) (tasks : List TaskItem) :
    SessionState :=
  { s with
    allowed_task_ids := pyIdSet (tasks.map (fun t => t.id)),
    tasks_fetched_at := some now }

/-- The two distinct validation failures produced by session.py.
stale stands for the message family "... data is stale. Call ... first",
unknownId carries the id from the message family
"... ID ... not found in recent ... fetch". -/
inductive ValidationError where
  | stale : ValidationError
  | unknownId : String → ValidationError
deriving DecidableEq, Repr

/-- SessionState.validate_event_proposal: staleness is checked first, then
membership of the id in the allowed set. -/
def validate_event_proposal (s : SessionState) (now : Int) (event_id : String) :
    Option ValidationError :=
  if s.is_calendar_fresh now = false then some ValidationError.stale
  else if s.allowed_event_ids.contains event_id = false then
    some (ValidationError.unknownId event_id)
  else none

/-- SessionState.validate_task_proposal: staleness first, then membership. -/
def validate_task_proposal (s : SessionState) (now : Int) (task_id : String) :
    Option ValidationError :=
  if s.is_tasks_fresh now = false then some ValidationError.stale
  else if s.allowed_task_ids.contains task_id = false then
    some (ValidationError.unknownId task_id)
  else none

/-- The proposal dicts returned by the propose_* tools in src/tools.py,
one constructor per proposal_type value.  Field order follows the dict
literals in the tool bodies.  unknownType stands for a dict whose
proposal_type string is none of the seven known values. -/
inductive Proposal where
  | create_task (title : String) (notes : String) (due_date : Option String)
  | edit_task (task_id : String) (current_title : String) (tasklist_id : String)
      (new_title : Option String) (new_notes : Option String) (new_due_date : Option String)
  | delete_task (task_id : String) (task_title : String) (tasklist_id : String)
  | complete_task (task_id : String) (task_title : String) (tasklist_id : String)
  | create_event (title : String) (date : String) (time : Option String)
      (duration_minutes : Int) (location : String) (description : String)
  | edit_event (event_id : String) (current_title : String) (current_datetime : String)
      (new_title : Option String) (new_date : Option String) (new_start_time : Option String)
      (new_end_time : Option String) (new_description : Option String) (new_location : Option String)
  | delete_event (event_id : String) (event_title : String) (event_datetime : String)
  | unknownType (ptype : String)
deriving DecidableEq, Repr

/-- The proposal_type string stored under the key proposal_type. -/
def proposalTypeName : Proposal → String
  | Proposal.create_task .. => "create_task"
  | Proposal.edit_task .. => "edit_task"
  | Proposal.delete_task .. => "delete_task"
  | Proposal.complete_task .. => "complete_task"
  | Proposal.create_event .. => "create_event"
  | Proposal.edit_event .. => "edit_event"
  | Proposal.delete_event .. => "delete_event"
  | Proposal.unknownType p => p

/-- Whether the proposal_type is none of the seven known variants. -/
def Proposal.isUnknownType : Proposal → Bool
  | Proposal.unknownType _ => true
  | _ => false

/-- Overwrite the display-only snapshot fields current_title and
current_datetime where the variant carries them (edit_task carries only
current_title; edit_event carries both; the other variants carry neither). -/
def Proposal.setCurrentFields : Proposal → String → String → Proposal
  | Proposal.edit_task tid _ tl nt nn nd, ct, _ =>
      Proposal.edit_task tid ct tl nt nn nd
  | Proposal.edit_event eid _ _ nt nd nst net ndc nlc, ct, cdt =>
      Proposal.edit_event eid ct cdt nt nd nst net ndc nlc
  | p, _, _ => p

/-- One call against the external mutation collaborator (google_api),
with exactly the keyword arguments passed by execute_confirmed_proposal. -/
inductive ApiCall where
  | create_task (title : String) (notes : String) (due_date : Option String)
  | edit_task (task_id : String) (tasklist_id : String)
      (title : Option String) (notes : Option String) (due_date : Option String)
  | delete_task (task_id : String) (tasklist_id : String)
  | complete_task (task_id : String) (tasklist_id : String)
  | create_event (title : String) (date : String) (time : Option String)
      (duration_minutes : Int) (location : String) (description : String)
  | edit_event (event_id : String) (title : Option String) (date : Option String)
      (start_time : Option String) (end_time : Option String)
      (description : Option String) (location : Option String)
  | delete_event (event_id : String)
deriving DecidableEq, Repr

/-- The pure variant-to-call mapping inside execute_confirmed_proposal:
which google_api function is called and with which proposal fields.
none corresponds to the final else branch (unknown proposal type), where
no collaborator call is made. -/
def dispatchCall : Proposal → Option ApiCall
  | Proposal.create_task t n d => some (ApiCall.create_task t n d)
  | Proposal.edit_task tid _ tl nt nn nd => some (ApiCall.edit_task tid tl nt nn nd)
  | Proposal.delete_task tid _ tl => some (ApiCall.delete_task tid tl)
  | Proposal.complete_task tid _ tl => some (ApiCall.complete_task tid tl)
  | Proposal.create_event t d tm du lo de => some (ApiCall.create_event t d tm du lo de)
  | Proposal.edit_event eid _ _ nt nd nst net ndc nlc =>
      some (ApiCall.edit_event eid nt nd nst net ndc nlc)
  | Proposal.delete_event eid _ _ => some (ApiCall.delete_event eid)
  | Proposal.unknownType _ => none

/-- A mutation result dict, restricted to the keys the modelled code ever
constructs or reads: success, message and error (each possibly absent).
Extra keys such as the created id are not observed by any claim. -/
structure ExecResult where
  success : Option Bool
  message : Option String
  error : Option String
deriving DecidableEq, Repr

/-- tools.execute_confirmed_proposal.  The collaborator api is opaque:
Except.ok is a returned dict, Except.error an exception raised into
the try block.  The unknown-type branch and the except branch both
return a dict holding only an error key (no success key). -/
def execute_confirmed_proposal (api : ApiCall → Except String ExecResult)
    (p : Proposal) : ExecResult :=
  match dispatchCall p with
  | some c =>
      match api c with
      | Except.ok r => r
      | Except.error e => { success := none, message := none, error := some e }
  | none =>
      { success := none, message := none,
        error := some ("Unknown proposal type: " ++ proposalTypeName p) }

/- =====================================================================
Pydantic argument validation (src/schemas.py) and the propose tool
bodies (src/tools.py).  A tool invocation first validates the raw
argument mapping against the schema (required fields, min_length,
numeric ranges, date and time regex patterns) and then builds the
proposal dict.  A schema violation raises, modelled as Except.error.
Pydantic collects all field errors into one exception; the model keeps
only the first failing field, which no claim distinguishes.
===================================================================== -/

/-- A required pydantic field: absent means a raised validation error. -/
def pyRequired (fieldName : String) : Option String → Except String String
  | some v => Except.ok v
  | none => Except.error ("Field required: " ++ fieldName)

/-- min_length=1 constraint. -/
def pyMinLen1 (fieldName : String) (v : String) : Except String String :=
  if v.length = 0 then
    Except.error ("String should have at least 1 character: " ++ fieldName)
  else Except.ok v

/-- The regex pattern for dates, YYYY-MM-DD. -/
def isDatePattern (s : String) : Bool :=
  match s.toList with
  | [y1, y2, y3, y4, h1, m1, m2, h2, d1, d2] =>
      y1.isDigit && y2.isDigit && y3.isDigit && y4.isDigit &&
      (h1 == '-') && m1.isDigit && m2.isDigit && (h2 == '-') &&
      d1.isDigit && d2.isDigit
  | _ => false

/-- The regex pattern for times, HH:MM. -/
def isTimePattern (s : String) : Bool :=
  match s.toList with
  | [a, b, c, d, e] => a.isDigit && b.isDigit && (c == ':') && d.isDigit && e.isDigit
  | _ => false

/-- A date-constrained string field. -/
def pyDate (fieldName : String) (v : String) : Except String String :=
  if isDatePattern v then Except.ok v
  else Except.error ("String should match date pattern: " ++ fieldName)

/-- A time-constrained string field. -/
def pyTime (fieldName : String) (v : String) : Except String String :=
  if isTimePattern v then Except.ok v
  else Except.error ("String should match time pattern: " ++ fieldName)

/-- An optional constrained field: absent is fine, present values are
checked. -/
def pyOptional (check : String → Except String String) :
    Option String → Except String (Option String)
  | none => Except.ok none
  | some v => (check v).map some

/-- ge and le bounds on an integer field. -/
def pyIntRange (fieldName : String) (lo hi : Int) (v : Int) : Except String Int :=
  if lo ≤ v ∧ v ≤ hi then Except.ok v
  else Except.error ("Input out of range: " ++ fieldName)

/-- The raw argument mapping supplied by the LLM for one propose tool:
every key the code reads, each possibly absent. -/
inductive ProposeArgs where
  | create_task (title : Option String) (notes : Option String) (due_date : Option String)
  | edit_task (task_id : Option String) (current_title : Option String)
      (tasklist_id : Option String) (title : Option String) (notes : Option String)
      (due_date : Option String)
  | delete_task (task_id : Option String) (task_title : Option String)
      (tasklist_id : Option String)
  | complete_task (task_id : Option String) (task_title : Option String)
      (tasklist_id : Option String)
  | create_event (title : Option String) (date : Option String) (time : Option String)
      (duration_minutes : Option Int) (location : Option String) (description : Option String)
  | edit_event (event_id : Option String) (current_title : Option String)
      (current_datetime : Option String) (new_title : Option String) (new_date : Option String)
      (new_start_time : Option String) (new_end_time : Option String)
      (new_description : Option String) (new_location : Option String)
  | delete_event (event_id : Option String) (event_title : Option String)
      (event_datetime : Option String)
deriving DecidableEq, Repr

/-- The registered tool name, as stored in the queued entry. -/
def proposeToolName : ProposeArgs → String
  | ProposeArgs.create_task .. => "propose_create_task"
  | ProposeArgs.edit_task .. => "propose_edit_task"
  | ProposeArgs.delete_task .. => "propose_delete_task"
  | ProposeArgs.complete_task .. => "propose_complete_task"
  | ProposeArgs.create_event .. => "propose_create_event"
  | ProposeArgs.edit_event .. => "propose_edit_event"
  | ProposeArgs.delete_event .. => "propose_delete_event"

/-- proposal_tool.invoke(tool_args): pydantic validation of the schema in
src/schemas.py followed by the tool body from src/tools.py. -/
def invokePropose : ProposeArgs → Except String Proposal
  | ProposeArgs.create_task title notes due_date => do
      let t0 ← pyRequired "title" title
      let t ← pyMinLen1 "title" t0
      let d ← pyOptional (pyDate "due_date") due_date
      Except.ok (Proposal.create_task t (notes.getD "") d)
  | ProposeArgs.edit_task task_id current_title tasklist_id title notes due_date => do
      let tid ← pyRequired "task_id" task_id
      let ct ← pyRequired "current_title" current_title
      let tl ← pyRequired "tasklist_id" tasklist_id
      let nt ← pyOptional (pyMinLen1 "title") title
      let nd ← pyOptional (pyDate "due_date") due_date
      Except.ok (Proposal.edit_task tid ct tl nt notes nd)
  | ProposeArgs.delete_task task_id task_title tasklist_id => do
      let tid ← pyRequired "task_id" task_id
      let tt ← pyRequired "task_title" task_title
      let tl ← pyRequired "tasklist_id" tasklist_id
      Except.ok (Proposal.delete_task tid tt tl)
  | ProposeArgs.complete_task task_id task_title tasklist_id => do
      let tid ← pyRequired "task_id" task_id
      let tt ← pyRequired "task_title" task_title
      let tl ← pyRequired "tasklist_id" tasklist_id
      Except.ok (Proposal.complete_task tid tt tl)
  | ProposeArgs.create_event title date time duration_minutes location description => do
      let t0 ← pyRequired "title" title
      let t ← pyMinLen1 "title" t0
      let d0 ← pyRequired "date" date
      let d ← pyDate "date" d0
      let tm ← pyOptional (pyTime "time") time
      let du ← match duration_minutes with
        | none => Except.ok (60 : Int)
        | some v => pyIntRange "duration_minutes" 5 1440 v
      Except.ok (Proposal.create_event t d tm du (location.getD "") (description.getD ""))
  | ProposeArgs.edit_event event_id current_title current_datetime new_title new_date
      new_start_time new_end_time new_description new_location => do
      let eid ← pyRequired "event_id" event_id
      let ct ← pyRequired "current_title" current_title
      let cdt ← pyRequired "current_datetime" current_datetime
      let nd ← pyOptional (pyDate "new_date") new_date
      let nst ← pyOptional (pyTime "new_start_time") new_start_time
      let net ← pyOptional (pyTime "new_end_time") new_end_time
      Except.ok (Proposal.edit_event eid ct cdt new_title nd nst net new_description new_location)
  | ProposeArgs.delete_event event_id event_title event_datetime => do
      let eid ← pyRequired "event_id" event_id
      let et ← pyRequired "event_title" event_title
      let edt ← pyRequired "event_datetime" event_datetime
      Except.ok (Proposal.delete_event eid et edt)

/-- Which validator group process_llm_response uses for a propose tool:
event proposals (propose_edit_event, propose_delete_event), task proposals
(propose_edit_task, propose_delete_task, propose_complete_task), or none
(the create variants). -/
inductive TargetKind where
  | calendarTarget : TargetKind
  | tasksTarget : TargetKind
  | noTarget : TargetKind
deriving DecidableEq, Repr

/-- Group of a propose tool, following the tool-name tuples in bot.py. -/
def targetKindOf : ProposeArgs → TargetKind
  | ProposeArgs.edit_event .. => TargetKind.calendarTarget
  | ProposeArgs.delete_event .. => TargetKind.calendarTarget
  | ProposeArgs.edit_task .. => TargetKind.tasksTarget
  | ProposeArgs.delete_task .. => TargetKind.tasksTarget
  | ProposeArgs.complete_task .. => TargetKind.tasksTarget
  | _ => TargetKind.noTarget

/-- tool_args.get of the id key the validation code reads: event_id for the
event group, task_id for the task group, nothing for create variants. -/
def targetIdOf : ProposeArgs → Option String
  | ProposeArgs.edit_event eid _ _ _ _ _ _ _ _ => eid
  | ProposeArgs.delete_event eid _ _ => eid
  | ProposeArgs.edit_task tid _ _ _ _ _ => tid
  | ProposeArgs.delete_task tid _ _ => tid
  | ProposeArgs.complete_task tid _ _ => tid
  | _ => none

/-- The validator dispatch in process_llm_response. -/
def validateTarget (s : SessionState) (now : Int) (args : ProposeArgs) (tid : String) :
    Option ValidationError :=
  match targetKindOf args with
  | TargetKind.calendarTarget => validate_event_proposal s now tid
  | TargetKind.tasksTarget => validate_task_proposal s now tid
  | TargetKind.noTarget => none

/- =====================================================================
Conversation storage and the agent loop (src/bot.py).
===================================================================== -/

/-- Read tool calls: get_calendar_events carries the raw days_ahead
argument (pydantic: default 7, ge 1, le 30); the other two take no
arguments. -/
inductive ReadCall where
  | get_calendar_events : Option Int → ReadCall
  | get_today_events : ReadCall
  | get_tasks : ReadCall
deriving DecidableEq, Repr

/-- The opaque read collaborator (google_api): get_events as a function of
days_ahead, and the task list.  google_api.get_today_events is
get_events(days_ahead=1). -/
structure Env where
  events_api : Int → List Event
  tasks_api : List TaskItem

/-- Result data of one read tool execution. -/
inductive ReadOutcome where
  | calendarData : List Event → ReadOutcome
  | tasksData : List TaskItem → ReadOutcome
deriving DecidableEq, Repr

/-- tool_func.invoke(tool_args) for a read tool: pydantic range check on
days_ahead, then the google_api call. -/
def runRead (env : Env) : ReadCall → Except String ReadOutcome
  | ReadCall.get_calendar_events none =>
      Except.ok (ReadOutcome.calendarData (env.events_api 7))
  | ReadCall.get_calendar_events (some v) =>
      (pyIntRange "days_ahead" 1 30 v).map (fun n => ReadOutcome.calendarData (env.events_api n))
  | ReadCall.get_today_events => Except.ok (ReadOutcome.calendarData (env.events_api 1))
  | ReadCall.get_tasks => Except.ok (ReadOutcome.tasksData env.tasks_api)

/-- One tool call requested by the LLM: the correlation id plus either a
read call or a propose call with its raw arguments. -/
inductive ToolCall where
  | read : String → ReadCall → ToolCall
  | propose : String → ProposeArgs → ToolCall
deriving DecidableEq, Repr

/-- One LLM response: text content and the requested tool calls. -/
structure AIMsg where
  content : String
  tool_calls : List ToolCall
deriving DecidableEq, Repr

/-- The structured content of a ToolMessage, as serialized by json.dumps at
each call site in bot.py: a read result, a proposal-validation error dict,
the cancellation dict, the change-requested dict (carrying the original
proposal), or an execution result dict. -/
inductive Payload where
  | calendarResult : List Event → Payload
  | tasksResult : List TaskItem → Payload
  | validationError : ValidationError → Payload
  | cancelled : Payload
  | changeRequested : Proposal → Payload
  | execResult : ExecResult → Payload
deriving DecidableEq, Repr

/-- One LangChain conversation message. -/
inductive Msg where
  | system : String → Msg
  | human : String → Msg
  | assistant : AIMsg → Msg
  | toolResult : String → Payload → Msg
deriving DecidableEq, Repr

/-- MAX_CONVERSATION_MESSAGES = 20. -/
def MAX_CONVERSATION_MESSAGES : Nat := 20

/-- bot.add_message: append, then keep only the last
MAX_CONVERSATION_MESSAGES entries (the Python slice conv[-20:]). -/
def add_message (conv : List Msg) (m : Msg) : List Msg :=
  let c := conv ++ [m]
  if MAX_CONVERSATION_MESSAGES < c.length then
    c.drop (c.length - MAX_CONVERSATION_MESSAGES)
  else c

/-- One queued proposal awaiting confirmation, as built in
process_llm_response: the proposal dict, the originating tool-call id and
the tool name. -/
structure PendingEntry where
  proposal : Proposal
  tool_call_id : String
  tool_name : String
deriving DecidableEq, Repr

/-- The state threaded through the body of the tool-call loop of one
iteration of process_llm_response: the conversation, the session state and
the local batch proposals_to_queue. -/
structure TurnState where
  conv : List Msg
  sess : SessionState
  batch : List PendingEntry
deriving DecidableEq, Repr

/-- The queued-proposal path of the loop body: invoke the propose tool
(pydantic validation plus tool body; a schema violation raises) and append
the entry to the local batch. -/
def synthesizeAndQueue (cid : String) (args : ProposeArgs) (st : TurnState) :
    Except String TurnState := do
  let p ← invokePropose args
  Except.ok { st with
    batch := st.batch ++ [{ proposal := p, tool_call_id := cid, tool_name := proposeToolName args }] }

/-- The body of the for-loop over ai_msg.tool_calls in
process_llm_response.  A read executes immediately, updates the session
from the fetched ids and appends its ToolResult.  A propose call first
looks up the target id (event_id or task_id) for the edit, delete and
complete variants; when the id is present and truthy it is validated
against the session, and a failure appends exactly one error ToolResult
and skips queuing; otherwise the proposal is synthesized and queued. -/
def processToolCall (env : Env) (now : Int) (st : TurnState) :
    ToolCall → Except String TurnState
  | ToolCall.read cid r => do
      let out ← runRead env r
      match out with
      | ReadOutcome.calendarData evs =>
          Except.ok
            { conv := add_message st.conv (Msg.toolResult cid (Payload.calendarResult evs)),
              sess := update_from_calendar_read st.sess now evs,
              batch := st.batch }
      | ReadOutcome.tasksData ts =>
          Except.ok
            { conv := add_message st.conv (Msg.toolResult cid (Payload.tasksResult ts)),
              sess := update_from_tasks_read st.sess now ts,
              batch := st.batch }
  | ToolCall.propose cid args =>
      match targetIdOf args with
      | some tid =>
          if tid = "" then synthesizeAndQueue cid args st
          else
            match validateTarget st.sess now args tid with
            | some err =>
                Except.ok { st with
                  conv := add_message st.conv (Msg.toolResult cid (Payload.validationError err)) }
            | none => synthesizeAndQueue cid args st
      | none => synthesizeAndQueue cid args st

/-- The whole for-loop over one iteration of tool calls, in order. -/
def processToolCalls (env : Env) (now : Int) :
    TurnState → List ToolCall → Except String TurnState
  | st, [] => Except.ok st
  | st, tc :: rest => do
      let st2 ← processToolCall env now st tc
      processToolCalls env now st2 rest

/-- How one turn of process_llm_response ends: a plain text reply, a
queued proposal awaiting confirmation, the fixed trouble-processing
fallback reply sent when the iteration budget runs out, or an uncaught
exception. -/
inductive TurnOutcome where
  | finalText : String → TurnOutcome
  | awaitingConfirmation : TurnOutcome
  | fallback : TurnOutcome
  | crashed : String → TurnOutcome
deriving DecidableEq, Repr

/-- Result of one turn: the outcome, the number of LLM calls made, and
the final conversation, session state and pending-proposal queue of the
user. -/
structure TurnResult where
  outcome : TurnOutcome
  llmCalls : Nat
  conv : List Msg
  sess : SessionState
  pending : List PendingEntry
deriving Repr

/-- bot.process_llm_response with its iteration budget as fuel
(max_iterations = 5).  Each iteration makes exactly one LLM call
(an opaque function of the conversation), appends the assistant message,
and either returns text, processes the tool calls, queues a non-empty
batch (which REPLACES the pending queue, mirroring the dict assignment
pending_proposals[user_id] = proposals_to_queue) or continues.  When the
budget is exhausted the fixed fallback text is sent.  On an uncaught
exception the partially updated state is not tracked further, since no
claim observes it. -/
def runLoop (env : Env) (llm : List Msg → AIMsg) (now : Int) :
    Nat → List Msg → SessionState → List PendingEntry → TurnResult
  | 0, conv, sess, pending =>
      { outcome := TurnOutcome.fallback, llmCalls := 0,
        conv := conv, sess := sess, pending := pending }
  | fuel + 1, conv, sess, pending =>
      let ai := llm conv
      let conv1 := add_message conv (Msg.assistant ai)
      if ai.tool_calls.isEmpty then
        { outcome := TurnOutcome.finalText ai.content, llmCalls := 1,
          conv := conv1, sess := sess, pending := pending }
      else
        match processToolCalls env now { conv := conv1, sess := sess, batch := [] } ai.tool_calls with
        | Except.error e =>
            { outcome := TurnOutcome.crashed e, llmCalls := 1,
              conv := conv1, sess := sess, pending := pending }
        | Except.ok st2 =>
            if st2.batch.isEmpty then
              let r := runLoop env llm now fuel st2.conv st2.sess pending
              { outcome := r.outcome, llmCalls := r.llmCalls + 1,
                conv := r.conv, sess := r.sess, pending := r.pending }
            else
              { outcome := TurnOutcome.awaitingConfirmation, llmCalls := 1,
                conv := st2.conv, sess := st2.sess, pending := st2.batch }

/-- The update of the global pending_proposals dict performed when a
non-empty batch is queued (bot.py, both in process_llm_response and in
the follow-up inside handle_confirm): plain assignment at the user key. -/
def set_pending (queues : Nat → List PendingEntry) (u : Nat)
    (batch : List PendingEntry) : Nat → List PendingEntry :=
  fun v => if v = u then batch else queues v

/-- The cancellation ToolResult synthesized per drained entry in
handle_cancel, correlated by the stored tool-call id. -/
def cancelResult (e : PendingEntry) : Msg :=
  Msg.toolResult e.tool_call_id Payload.cancelled

/-- bot.handle_cancel: pop the entire queue, append one cancellation
ToolResult per entry in order, leave the queue empty. -/
def handle_cancel (conv : List Msg) (queue : List PendingEntry) :
    List Msg × List PendingEntry :=
  (queue.foldl (fun c it => add_message c (cancelResult it)) conv, [])

/-- bot.handle_change: on a non-empty queue, append a single
change-requested ToolResult for the head entry (carrying the original
proposal) and drop the entire queue; on an empty queue nothing changes. -/
def handle_change (conv : List Msg) (queue : List PendingEntry) :
    List Msg × List PendingEntry :=
  match queue with
  | [] => (conv, queue)
  | e :: _ =>
      (add_message conv (Msg.toolResult e.tool_call_id (Payload.changeRequested e.proposal)), [])

/-- Does a conversation message request the given tool-call id? -/
def requestsId (m : Msg) (cid : String) : Bool :=
  match m with
  | Msg.assistant a =>
      a.tool_calls.any (fun tc =>
        match tc with
        | ToolCall.read i _ => i == cid
        | ToolCall.propose i _ => i == cid)
  | _ => false

/-- No retained ToolResult is orphaned: every toolResult message in the
conversation has some retained message requesting its id. -/
def noOrphanResults (conv : List Msg) : Bool :=
  conv.all (fun m =>
    match m with
    | Msg.toolResult cid _ => conv.any (fun m2 => requestsId m2 cid)
    | _ => true)

/- =====================================================================
Shared concrete fixtures for witnesses and counterexamples.
===================================================================== -/

/-- An empty session: nothing fetched yet. -/
def sessEmpty : SessionState :=
  { allowed_event_ids := [], allowed_task_ids := [],
    calendar_fetched_at := none, tasks_fetched_at := none }

/-- A read collaborator that returns nothing. -/
def envEmpty : Env := { events_api := fun _ => [], tasks_api := [] }

/-- A pending entry used in queue examples. -/
def entryA : PendingEntry :=
  { proposal := Proposal.create_task "A" "" none,
    tool_call_id := "tcA", tool_name := "propose_create_task" }

/-- A second pending entry used in queue examples. -/
def entryB : PendingEntry :=
  { proposal := Proposal.create_task "B" "" none,
    tool_call_id := "tcB", tool_name := "propose_create_task" }

/- =====================================================================
Claim theorems.
===================================================================== -/

/-- Claim C1 (confirmed).  Executing a confirmed proposal maps each known
variant to exactly one mutation-collaborator call (dispatchCall is a
function and yields some call exactly on the seven known variants), and
the call is built only from the new/target fields: overwriting the
display-only fields current_title and current_datetime with arbitrary
values never changes the dispatched call nor the execution result, so
those fields are never passed to any mutation call. -/
theorem dispatch_passes_only_new_fields :
    ∀ (p : Proposal) (ct cdt : String) (api : ApiCall → Except String ExecResult),
      dispatchCall (p.setCurrentFields ct cdt) = dispatchCall p
      ∧ (dispatchCall p).isSome = !(p.isUnknownType)
      ∧ execute_confirmed_proposal api (p.setCurrentFields ct cdt)
          = execute_confirmed_proposal api p := by
  intro p ct cdt api
  cases p <;>
    simp [Proposal.setCurrentFields, dispatchCall, Proposal.isUnknownType,
      execute_confirmed_proposal, proposalTypeName]

/-- Claim C3 (confirmed).  Both validators check staleness before
membership: whenever the matching fetch timestamp is absent or at least
FRESHNESS_TTL old, validation fails with the stale error even if the id is
in the allowed set; when the data is fresh (strictly now - t < TTL) but the
id is not in the allowed set it fails with the unknownId error; when fresh
and present it succeeds. -/
theorem validate_staleness_before_membership :
    ∀ (s : SessionState) (now : Int) (eid tid : String),
      ((s.calendar_fetched_at = none
          ∨ ∃ t, s.calendar_fetched_at = some t ∧ FRESHNESS_TTL ≤ now - t) →
        validate_event_proposal s now eid = some ValidationError.stale)
      ∧ (∀ t, s.calendar_fetched_at = some t → now - t < FRESHNESS_TTL →
          (s.allowed_event_ids.contains eid = false →
            validate_event_proposal s now eid = some (ValidationError.unknownId eid))
          ∧ (s.allowed_event_ids.contains eid = true →
            validate_event_proposal s now eid = none))
      ∧ ((s.tasks_fetched_at = none
          ∨ ∃ t, s.tasks_fetched_at = some t ∧ FRESHNESS_TTL ≤ now - t) →
        validate_task_proposal s now tid = some ValidationError.stale)
      ∧ (∀ t, s.tasks_fetched_at = some t → now - t < FRESHNESS_TTL →
          (s.allowed_task_ids.contains tid = false →
            validate_task_proposal s now tid = some (ValidationError.unknownId tid))
          ∧ (s.allowed_task_ids.contains tid = true →
            validate_task_proposal s now tid = none)) := by
  intro s now eid tid
  refine ⟨?_, ?_, ?_, ?_⟩
  · rintro (h | ⟨t, ht, hle⟩)
    · simp [validate_event_proposal, SessionState.is_calendar_fresh, h]
    · have hle2 : (120 : Int) ≤ now - t := hle
      have hnf : s.is_calendar_fresh now = false := by
        simp [SessionState.is_calendar_fresh, ht, FRESHNESS_TTL]
        omega
      simp [validate_event_proposal, hnf]
  · intro t ht hlt
    have hlt2 : now - t < (120 : Int) := hlt
    have hf : s.is_calendar_fresh now = true := by
      simp [SessionState.is_calendar_fresh, ht, FRESHNESS_TTL]
      omega
    refine ⟨fun hmem => ?_, fun hmem => ?_⟩
    · have hm2 : eid ∉ s.allowed_event_ids := by simpa using hmem
      simp [validate_event_proposal, hf, hm2]
    · have hm2 : eid ∈ s.allowed_event_ids := by simpa using hmem
      simp [validate_event_proposal, hf, hm2]
  · rintro (h | ⟨t, ht, hle⟩)
    · simp [validate_task_proposal, SessionState.is_tasks_fresh, h]
    · have hle2 : (120 : Int) ≤ now - t := hle
      have hnf : s.is_tasks_fresh now = false := by
        simp [SessionState.is_tasks_fresh, ht, FRESHNESS_TTL]
        omega
      simp [validate_task_proposal, hnf]
  · intro t ht hlt
    have hlt2 : now - t < (120 : Int) := hlt
    have hf : s.is_tasks_fresh now = true := by
      simp [SessionState.is_tasks_fresh, ht, FRESHNESS_TTL]
      omega
    refine ⟨fun hmem => ?_, fun hmem => ?_⟩
    · have hm2 : tid ∉ s.allowed_task_ids := by simpa using hmem
      simp [validate_task_proposal, hf, hm2]
    · have hm2 : tid ∈ s.allowed_task_ids := by simpa using hmem
      simp [validate_task_proposal, hf, hm2]

/-- Witness for C3: with both kinds fetched at time 0 and ids e1/t1
allowed, at now = 120 the event validator reports stale even though e1 is
still in the allowed set; at now = 119 an unknown id reports unknownId and
the allowed id validates. -/
theorem validate_staleness_before_membership_witness :
    validate_event_proposal
        { allowed_event_ids := ["e1"], allowed_task_ids := ["t1"],
          calendar_fetched_at := some 0, tasks_fetched_at := some 0 } 120 "e1"
      = some ValidationError.stale
    ∧ validate_event_proposal
        { allowed_event_ids := ["e1"], allowed_task_ids := ["t1"],
          calendar_fetched_at := some 0, tasks_fetched_at := some 0 } 119 "e2"
      = some (ValidationError.unknownId "e2")
    ∧ validate_task_proposal
        { allowed_event_ids := ["e1"], allowed_task_ids := ["t1"],
          calendar_fetched_at := some 0, tasks_fetched_at := some 0 } 119 "t1"
      = none := by
  refine ⟨?_, ?_, ?_⟩
  · exact (validate_staleness_before_membership _ 120 "e1" "t1").1
      (Or.inr ⟨0, rfl, by decide⟩)
  · exact ((validate_staleness_before_membership _ 119 "e2" "t1").2.1 0 rfl
      (by decide)).1 (by decide)
  · exact ((validate_staleness_before_membership _ 119 "e2" "t1").2.2.2 0 rfl
      (by decide)).2 (by decide)

/-- Counterexample for C8.  On the unknown-variant failure path the
dispatcher returns a dict holding only an error key: the success key is
absent, not false, so the claimed normalized shape with success = false
does not hold as stated. -/
theorem dispatch_error_shape_counterexample :
    execute_confirmed_proposal
        (fun _ => Except.ok { success := some true, message := some "ok", error := none })
        (Proposal.unknownType "rename_task")
      = { success := none, message := none,
          error := some ("Unknown proposal type: " ++ "rename_task") }
    ∧ (execute_confirmed_proposal
        (fun _ => Except.ok { success := some true, message := some "ok", error := none })
        (Proposal.unknownType "rename_task")).success ≠ some false := by
  exact ⟨rfl, by simp [execute_confirmed_proposal, dispatchCall, proposalTypeName]⟩

/-- Claim C8 (amended).  Every failure is caught and converted to a result
carrying an error message - an unknown variant yields the fixed
unknown-type error dict, and an exception raised by the mutation
collaborator yields a dict with its message as the error - while the
success key is absent (in particular never true) on both failure paths; a
returned collaborator dict is passed through unchanged.  No exception
propagates: the dispatcher is a total function into result dicts. -/
theorem dispatch_failures_caught :
    ∀ (api : ApiCall → Except String ExecResult) (p : Proposal),
      (p.isUnknownType = true →
        execute_confirmed_proposal api p
          = { success := none, message := none,
              error := some ("Unknown proposal type: " ++ proposalTypeName p) })
      ∧ (∀ c e, dispatchCall p = some c → api c = Except.error e →
          execute_confirmed_proposal api p
            = { success := none, message := none, error := some e })
      ∧ (∀ c r, dispatchCall p = some c → api c = Except.ok r →
          execute_confirmed_proposal api p = r) := by
  intro api p
  refine ⟨?_, ?_, ?_⟩
  · intro hu
    cases p <;> simp_all [Proposal.isUnknownType, execute_confirmed_proposal, dispatchCall]
  · intro c e hc he
    simp [execute_confirmed_proposal, hc, he]
  · intro c r hc hr
    simp [execute_confirmed_proposal, hc, hr]

/-- Witness for C8 amended: a collaborator that raises "network down" on a
delete_event dispatch produces the caught error dict with no success key. -/
theorem dispatch_failures_caught_witness :
    execute_confirmed_proposal (fun _ => Except.error "network down")
        (Proposal.delete_event "e1" "Standup" "2025-01-01")
      = { success := none, message := none, error := some "network down" } := by
  exact (dispatch_failures_caught (fun _ => Except.error "network down")
    (Proposal.delete_event "e1" "Standup" "2025-01-01")).2.1
    (ApiCall.delete_event "e1") "network down" rfl rfl

/-- Counterexample for C4.  The queue update is the dict assignment
pending_proposals[user_id] = proposals_to_queue: with one entry already
queued for user 1, enqueuing a batch of one new entry leaves the queue
holding only the new entry, not the old entry followed by the new one, and
the head changes. -/
theorem enqueue_appends_counterexample :
    set_pending (fun v => if v = 1 then [entryA] else []) 1 [entryB] 1 = [entryB]
    ∧ set_pending (fun v => if v = 1 then [entryA] else []) 1 [entryB] 1 ≠ [entryA, entryB]
    ∧ (set_pending (fun v => if v = 1 then [entryA] else []) 1 [entryB] 1).head? ≠ some entryA := by
  refine ⟨rfl, by decide, by decide⟩

/-- Claim C4 (amended).  Enqueuing a batch of newly validated proposal
entries REPLACES the user pending-proposal queue: afterwards the queue
holds exactly the new batch (any previously queued entries are discarded),
the head/active entry is the first entry of the batch, and the queues of
all other users are unchanged. -/
theorem enqueue_replaces_queue :
    ∀ (queues : Nat → List PendingEntry) (u : Nat) (batch : List PendingEntry),
      set_pending queues u batch u = batch
      ∧ (set_pending queues u batch u).head? = batch.head?
      ∧ ∀ v, v ≠ u → set_pending queues u batch v = queues v := by
  intro queues u batch
  refine ⟨by simp [set_pending], by simp [set_pending], ?_⟩
  intro v hv
  simp [set_pending, hv]

/-- Witness for C4 amended: replacing the queue of user 1 (which held
entryA) with [entryB] gives [entryB] for user 1 and leaves user 2 alone. -/
theorem enqueue_replaces_queue_witness :
    set_pending (fun v => if v = 1 then [entryA] else []) 1 [entryB] 1 = [entryB]
    ∧ set_pending (fun v => if v = 1 then [entryA] else []) 1 [entryB] 2 = [] := by
  refine ⟨(enqueue_replaces_queue (fun v => if v = 1 then [entryA] else []) 1 [entryB]).1, ?_⟩
  have h := (enqueue_replaces_queue (fun v => if v = 1 then [entryA] else []) 1 [entryB]).2.2
    2 (by decide)
  simpa using h

/-- Keeping the last MAX_CONVERSATION_MESSAGES entries of a history (the
Python slice conv[-20:], which is the whole list when it is short). -/
def truncHistory (l : List Msg) : List Msg :=
  l.drop (l.length - MAX_CONVERSATION_MESSAGES)

/-- add_message is exactly append-then-truncate. -/
theorem add_message_eq_trunc (conv : List Msg) (m : Msg) :
    add_message conv m = truncHistory (conv ++ [m]) := by
  unfold add_message truncHistory
  dsimp only
  split
  · rfl
  · rename_i h
    have h2 : (conv ++ [m]).length ≤ MAX_CONVERSATION_MESSAGES := Nat.not_lt.mp h
    have h0 : (conv ++ [m]).length - MAX_CONVERSATION_MESSAGES = 0 := by omega
    rw [h0]
    exact (List.drop_zero _).symm

/-- add_message keeps the history within the bound. -/
theorem add_message_length_le (conv : List Msg) (m : Msg) :
    (add_message conv m).length ≤ MAX_CONVERSATION_MESSAGES := by
  rw [add_message_eq_trunc]
  unfold truncHistory
  rw [List.length_drop]
  omega

/-- Truncating, appending and truncating again is the same as truncating
the full concatenation: the kept suffix only ever depends on the last
MAX_CONVERSATION_MESSAGES entries. -/
theorem trunc_append_trunc (a b : List Msg) :
    truncHistory (truncHistory a ++ b) = truncHistory (a ++ b) := by
  unfold truncHistory
  by_cases h : a.length ≤ MAX_CONVERSATION_MESSAGES
  · have h0 : a.length - MAX_CONVERSATION_MESSAGES = 0 := by omega
    simp [h0]
  · have hlen : (a.drop (a.length - MAX_CONVERSATION_MESSAGES)).length
        = MAX_CONVERSATION_MESSAGES := by
      simp
      omega
    have hdrop : (a ++ b).length - MAX_CONVERSATION_MESSAGES
        = (a.length - MAX_CONVERSATION_MESSAGES)
          + ((a.drop (a.length - MAX_CONVERSATION_MESSAGES) ++ b).length
              - MAX_CONVERSATION_MESSAGES) := by
      simp [hlen]
      omega
    rw [hdrop, ← List.drop_drop]
    congr 1
    rw [List.drop_append_of_le_length (by omega)]

/-- Folding add_message over a batch of messages, starting from an
in-bound history, appends the whole batch and truncates once. -/
theorem foldl_add_message (l : List Msg) :
    ∀ (conv : List Msg), conv.length ≤ MAX_CONVERSATION_MESSAGES →
      l.foldl add_message conv = truncHistory (conv ++ l) := by
  induction l with
  | nil =>
      intro conv h
      have h0 : conv.length - MAX_CONVERSATION_MESSAGES = 0 := by omega
      simp [truncHistory, h0]
  | cons m rest ih =>
      intro conv h
      have hstep := add_message_eq_trunc conv m
      calc (m :: rest).foldl add_message conv
          = rest.foldl add_message (add_message conv m) := by simp
        _ = truncHistory (add_message conv m ++ rest) :=
            ih (add_message conv m) (add_message_length_le conv m)
        _ = truncHistory (truncHistory (conv ++ [m]) ++ rest) := by rw [hstep]
        _ = truncHistory ((conv ++ [m]) ++ rest) := trunc_append_trunc (conv ++ [m]) rest
        _ = truncHistory (conv ++ m :: rest) := by simp

/-- Claim C6 (confirmed).  Cancelling a non-empty queue of N = 1 + |rest|
pending proposals appends exactly one cancellation ToolResult per entry,
in queue order, each correlated to the tool-call id stored in its entry
(cancelResult), and leaves the pending queue empty.  The conversation
bound of add_message applies to the result as always, which is why the
appended batch appears under one final truncation. -/
theorem cancel_answers_every_entry :
    ∀ (conv : List Msg) (e : PendingEntry) (rest : List PendingEntry),
      conv.length ≤ MAX_CONVERSATION_MESSAGES →
      handle_cancel conv (e :: rest)
        = (truncHistory (conv ++ (e :: rest).map cancelResult), [])
      ∧ ((e :: rest).map cancelResult).length = (e :: rest).length := by
  intro conv e rest h
  constructor
  · unfold handle_cancel
    rw [show (e :: rest).foldl (fun c it => add_message c (cancelResult it)) conv
          = ((e :: rest).map cancelResult).foldl add_message conv by
        rw [List.foldl_map]]
    rw [foldl_add_message _ conv h]
  · simp

/-- Witness for C6: cancelling a queue of two entries produces the two
correlated cancellation results and an empty queue. -/
theorem cancel_answers_every_entry_witness :
    handle_cancel [] [entryA, entryB]
      = ([Msg.toolResult "tcA" Payload.cancelled, Msg.toolResult "tcB" Payload.cancelled], []) := by
  have h := (cancel_answers_every_entry [] entryA [entryB] (by decide)).1
  simpa [truncHistory, cancelResult, entryA, entryB] using h

/-- Claim C7 (confirmed).  Requesting a change on a non-empty queue (in
particular any N > 1) empties the entire queue while appending exactly one
ToolResult: the one correlated to the formerly active head entry, carrying
the change-requested status together with the original proposal.  The
other queued entries are discarded without any ToolResult. -/
theorem change_drains_all_answers_head :
    ∀ (conv : List Msg) (e : PendingEntry) (rest : List PendingEntry),
      handle_change conv (e :: rest)
        = (add_message conv (Msg.toolResult e.tool_call_id (Payload.changeRequested e.proposal)),
           []) := by
  intro conv e rest
  rfl

/-- Claim C2 (confirmed).  In the tool-call loop of one turn, a propose
tool call of an edit/delete/complete variant whose target id is present
and truthy but fails session validation is never added to the local batch
of proposals to queue (hence never reaches the pending-proposal queue,
which is only ever assigned from that batch): the only effect is exactly
one ToolResult carrying the validation error, correlated to that tool
call id, appended to the conversation.  In addition a read tool call
records exactly the ids of its result as the new allowed set and stamps
the fetch time, which is the state the validator consults. -/
theorem invalid_proposal_rejected_not_queued :
    (∀ (env : Env) (now : Int) (st : TurnState) (cid tid : String)
        (args : ProposeArgs) (err : ValidationError),
      targetIdOf args = some tid →
      tid ≠ "" →
      validateTarget st.sess now args tid = some err →
      processToolCall env now st (ToolCall.propose cid args)
        = Except.ok { st with
            conv := add_message st.conv (Msg.toolResult cid (Payload.validationError err)) })
    ∧ (∀ (env : Env) (now : Int) (st : TurnState) (cid : String),
      processToolCall env now st (ToolCall.read cid ReadCall.get_today_events)
        = Except.ok
            { conv := add_message st.conv
                (Msg.toolResult cid (Payload.calendarResult (env.events_api 1))),
              sess := update_from_calendar_read st.sess now (env.events_api 1),
              batch := st.batch }) := by
  constructor
  · intro env now st cid tid args err hid hne hval
    simp [processToolCall, hid, hne, hval]
  · intro env now st cid
    rfl

/-- Witness for C2: with an empty (stale) session, proposing to delete
event e1 is rejected with the stale error: the only change is the single
correlated error ToolResult, and the batch stays empty. -/
theorem invalid_proposal_rejected_not_queued_witness :
    processToolCall envEmpty 0 { conv := [], sess := sessEmpty, batch := [] }
        (ToolCall.propose "tc9" (ProposeArgs.delete_event (some "e1") (some "T") (some "D")))
      = Except.ok
          { conv := [Msg.toolResult "tc9" (Payload.validationError ValidationError.stale)],
            sess := sessEmpty, batch := [] } := by
  have h := invalid_proposal_rejected_not_queued.1 envEmpty 0
    { conv := [], sess := sessEmpty, batch := [] } "tc9" "e1"
    (ProposeArgs.delete_event (some "e1") (some "T") (some "D"))
    ValidationError.stale rfl (by decide) rfl
  simpa [add_message] using h

/-- Whether a tool invocation completed without raising. -/
def invocationOk (r : Except String TurnState) : Bool :=
  match r with
  | Except.ok _ => true
  | Except.error _ => false

/-- Counterexample for C10.  A propose_delete_event tool call whose
event_id argument is ABSENT does skip session validation (the falsy-id
guard), but it is not queued as if it had passed: invoking the tool raises
a schema validation error (event_id is a required field in
ProposeDeleteEventArgs), so the call fails instead of producing a queued
proposal. -/
theorem absent_id_not_queued_counterexample :
    processToolCall envEmpty 0 { conv := [], sess := sessEmpty, batch := [] }
        (ToolCall.propose "tc7" (ProposeArgs.delete_event none (some "Standup") (some "2025-01-01")))
      = Except.error ("Field required: " ++ "event_id")
    ∧ invocationOk
        (processToolCall envEmpty 0 { conv := [], sess := sessEmpty, batch := [] }
          (ToolCall.propose "tc7"
            (ProposeArgs.delete_event none (some "Standup") (some "2025-01-01"))))
      = false := by
  exact ⟨rfl, rfl⟩

/-- Claim C10 (amended).  For a propose tool call of an edit, delete or
complete variant, session validation is skipped exactly when the target-id
argument is absent or the empty string - neither the staleness check nor
the allowed-set check runs, as the conclusion is independent of the
session state.  When the id is the empty string the proposal is then
synthesized and queued for confirmation exactly as if it had passed
validation; when the id is absent the tool invocation instead raises a
schema validation error (the id fields are required), so nothing is
queued and the turn aborts. -/
theorem blank_or_absent_id_skips_validation :
    ∀ (env : Env) (now : Int) (st : TurnState) (cid : String) (args : ProposeArgs),
      (∀ p, targetIdOf args = some "" →
        invokePropose args = Except.ok p →
        processToolCall env now st (ToolCall.propose cid args)
          = Except.ok { st with
              batch := st.batch ++
                [{ proposal := p, tool_call_id := cid, tool_name := proposeToolName args }] })
      ∧ (targetIdOf args = none →
          targetKindOf args ≠ TargetKind.noTarget →
          ∃ e, processToolCall env now st (ToolCall.propose cid args) = Except.error e) := by
  intro env now st cid args
  constructor
  · intro p hid hinv
    simp [processToolCall, hid, synthesizeAndQueue, hinv]
    rfl
  · intro hid hkind
    cases args <;> simp_all [targetIdOf, targetKindOf] <;>
      exact ⟨_, rfl⟩

/-- Witness for C10 amended: an empty-string event id passes no
validation against a completely stale, empty session and the delete
proposal is queued; an absent task id on a complete_task call raises. -/
theorem blank_or_absent_id_skips_validation_witness :
    processToolCall envEmpty 0 { conv := [], sess := sessEmpty, batch := [] }
        (ToolCall.propose "tc5" (ProposeArgs.delete_event (some "") (some "T") (some "D")))
      = Except.ok
          { conv := [], sess := sessEmpty,
            batch := [{ proposal := Proposal.delete_event "" "T" "D",
                        tool_call_id := "tc5", tool_name := "propose_delete_event" }] }
    ∧ ∃ e, processToolCall envEmpty 0 { conv := [], sess := sessEmpty, batch := [] }
        (ToolCall.propose "tc6" (ProposeArgs.complete_task none (some "T") (some "L")))
      = Except.error e := by
  constructor
  · have h := (blank_or_absent_id_skips_validation envEmpty 0
      { conv := [], sess := sessEmpty, batch := [] } "tc5"
      (ProposeArgs.delete_event (some "") (some "T") (some "D"))).1
      (Proposal.delete_event "" "T" "D") rfl rfl
    simpa using h
  · exact (blank_or_absent_id_skips_validation envEmpty 0
      { conv := [], sess := sessEmpty, batch := [] } "tc6"
      (ProposeArgs.complete_task none (some "T") (some "L"))).2 rfl (by decide)

/-- The 20-message conversation used to exhibit the truncation bug: an
assistant tool request, its ToolResult, then 18 later human messages. -/
def convFull : List Msg :=
  Msg.assistant { content := "", tool_calls := [ToolCall.read "tc1" ReadCall.get_tasks] }
    :: Msg.toolResult "tc1" (Payload.tasksResult [])
    :: List.replicate 18 (Msg.human "hi")

/-- Claim C9 (code_bug).  The conversation bound of 20 and oldest-first
dropping hold, but the third conjunct fails: add_message truncates with a
plain slice, so adding one message to convFull drops the assistant message
that requested tc1 while RETAINING its ToolResult, which becomes the new
head - an orphaned ToolResult, split from its requesting message across
the truncation boundary. -/
theorem truncation_orphans_toolresult :
    convFull.length = 20
    ∧ noOrphanResults convFull = true
    ∧ (add_message convFull (Msg.human "next")).length = 20
    ∧ (add_message convFull (Msg.human "next")).head?
        = some (Msg.toolResult "tc1" (Payload.tasksResult []))
    ∧ noOrphanResults (add_message convFull (Msg.human "next")) = false := by
  refine ⟨rfl, by decide, rfl, rfl, by decide⟩

/-- The all-reads-or-rejections scenario of the agent loop: every LLM
response carries tool calls, and processing them (from any conversation
and session reached) completes without raising and leaves the local batch
of proposals to queue empty. -/
def ReadOnlyStep (env : Env) (llm : List Msg → AIMsg) (now : Int) : Prop :=
  ∀ (c : List Msg) (s : SessionState),
    (llm c).tool_calls ≠ []
    ∧ ∃ st2, processToolCalls env now
        { conv := add_message c (Msg.assistant (llm c)), sess := s, batch := [] }
        (llm c).tool_calls = Except.ok st2
      ∧ st2.batch = []

/-- The loop never makes more LLM calls than its iteration budget. -/
theorem runLoop_calls_le (env : Env) (llm : List Msg → AIMsg) (now : Int) :
    ∀ (fuel : Nat) (conv : List Msg) (sess : SessionState)
      (pending : List PendingEntry),
      (runLoop env llm now fuel conv sess pending).llmCalls ≤ fuel := by
  intro fuel
  induction fuel with
  | zero => intro conv sess pending; exact Nat.le_refl 0
  | succ n ih =>
      intro conv sess pending
      simp only [runLoop]
      split
      · dsimp only
        omega
      · split
        · dsimp only
          omega
        · split
          · exact Nat.succ_le_succ (ih _ _ _)
          · dsimp only
            omega

/-- Under ReadOnlyStep the loop burns its entire budget: it ends in the
fallback outcome having made exactly fuel LLM calls. -/
theorem runLoop_readonly (env : Env) (llm : List Msg → AIMsg) (now : Int)
    (h : ReadOnlyStep env llm now) :
    ∀ (fuel : Nat) (conv : List Msg) (sess : SessionState)
      (pending : List PendingEntry),
      (runLoop env llm now fuel conv sess pending).outcome = TurnOutcome.fallback
      ∧ (runLoop env llm now fuel conv sess pending).llmCalls = fuel := by
  intro fuel
  induction fuel with
  | zero => intro conv sess pending; exact ⟨rfl, rfl⟩
  | succ n ih =>
      intro conv sess pending
      obtain ⟨hne, st2, hproc, hbatch⟩ := h conv sess
      have hemp : (llm conv).tool_calls.isEmpty = false := by
        cases hcalls : (llm conv).tool_calls with
        | nil => exact absurd hcalls hne
        | cons a l => rfl
      refine ⟨?_, ?_⟩ <;>
        simp [runLoop, hemp, hproc, hbatch,
          (ih st2.conv st2.sess pending).1, (ih st2.conv st2.sess pending).2]

/-- Claim C5 (confirmed).  The agent loop run with its budget of
max_iterations = 5 makes at most 5 LLM calls; when every iteration yields
tool calls that are all reads or rejected validations (never final text,
never a queued proposal, ReadOnlyStep), the turn ends after exactly the
5th LLM call with the fixed fallback outcome, so no 6th call occurs; and
whenever the first response processes to a non-empty batch of queued
proposals, the loop exits immediately with awaitingConfirmation after
that single LLM call, regardless of the remaining iteration budget
(any fuel + 1). -/
theorem agent_loop_bounded_five :
    ∀ (env : Env) (llm : List Msg → AIMsg) (now : Int) (conv : List Msg)
      (sess : SessionState) (pending : List PendingEntry),
      (runLoop env llm now 5 conv sess pending).llmCalls ≤ 5
      ∧ (ReadOnlyStep env llm now →
          (runLoop env llm now 5 conv sess pending).outcome = TurnOutcome.fallback
          ∧ (runLoop env llm now 5 conv sess pending).llmCalls = 5)
      ∧ (∀ (fuel : Nat) (st2 : TurnState),
          (llm conv).tool_calls ≠ [] →
          processToolCalls env now
            { conv := add_message conv (Msg.assistant (llm conv)), sess := sess, batch := [] }
            (llm conv).tool_calls = Except.ok st2 →
          st2.batch ≠ [] →
          runLoop env llm now (fuel + 1) conv sess pending
            = { outcome := TurnOutcome.awaitingConfirmation, llmCalls := 1,
                conv := st2.conv, sess := st2.sess, pending := st2.batch }) := by
  intro env llm now conv sess pending
  refine ⟨runLoop_calls_le env llm now 5 conv sess pending, ?_, ?_⟩
  · intro h
    exact runLoop_readonly env llm now h 5 conv sess pending
  · intro fuel st2 hne hproc hb
    have hemp : (llm conv).tool_calls.isEmpty = false := by
      cases hcalls : (llm conv).tool_calls with
      | nil => exact absurd hcalls hne
      | cons a l => rfl
    have hbe : st2.batch.isEmpty = false := by
      cases hcalls : st2.batch with
      | nil => exact absurd hcalls hb
      | cons a l => rfl
    simp [runLoop, hemp, hproc, hbe]

/-- An LLM stub that always requests the read tool get_tasks. -/
def llmRead : List Msg → AIMsg :=
  fun _ => { content := "", tool_calls := [ToolCall.read "r1" ReadCall.get_tasks] }

/-- Witness for C5: with an LLM that always answers with a single
get_tasks read call, the turn ends in the fallback outcome after exactly
5 LLM calls, within the budget. -/
theorem agent_loop_bounded_five_witness :
    (runLoop envEmpty llmRead 0 5 [] sessEmpty []).outcome = TurnOutcome.fallback
    ∧ (runLoop envEmpty llmRead 0 5 [] sessEmpty []).llmCalls = 5
    ∧ (runLoop envEmpty llmRead 0 5 [] sessEmpty []).llmCalls ≤ 5 := by
  have hro : ReadOnlyStep envEmpty llmRead 0 := by
    intro c s
    refine ⟨by simp [llmRead],
      ⟨{ conv := add_message (add_message c (Msg.assistant (llmRead c)))
            (Msg.toolResult "r1" (Payload.tasksResult [])),
         sess := update_from_tasks_read s 0 [],
         batch := [] }, rfl, rfl⟩⟩
  have h := (agent_loop_bounded_five envEmpty llmRead 0 [] sessEmpty []).2.1 hro
  exact ⟨h.1, h.2, (agent_loop_bounded_five envEmpty llmRead 0 [] sessEmpty []).1⟩
